import Mathlib

/-!
Verification of the alert-retrieval client in `get_alerts.py`.

The Python module is shallowly embedded below:
* pure functions (`get_payload`, the header construction in `get_headers`,
  the timestamp truncation) become Lean functions;
* the ambient clock and the CSPRNG used by `get_headers` become explicit
  parameters (`now_ms`, a stream `rng` of random draws), as the spec's
  design notes themselves suggest;
* the network (`make_request`) becomes an abstract source
  `Int → Int → Except String (Response α)`: the two `Int`s are the
  `start`/`end` window bounds that vary across the pagination loop,
  `Except.error` models a raised exception, and `Response` models the
  parsed JSON envelope `reply.alerts`;
* the `while True` loop of `retrieve_all_alerts` becomes a fuel-indexed
  step function `run_loop` over an explicit `LoopState`; `none` means the
  fuel ran out before the loop terminated.  The state carries a ghost
  trace `fetches` recording the `(start, end)` window of every request
  issued, so that "performs exactly n fetches" is expressible;
* Python dicts with a fixed key set (payloads, headers) become structures
  or association lists in insertion order;
* the filesystem and S3 collaborators of `save_alerts_to_file` /
  `upload_to_s3` become a `StorageEnv` of success flags plus a ghost trace
  of attempted storage operations;
* `hashlib.sha256(...).hexdigest()` is embedded as a full executable
  SHA-256 over `Nat` bytes (`sha256hex`), with UTF-8 encoding of the
  input string.
-/

namespace GetAlerts

/-! Section: Payload builder (`get_payload`) -/

/-- One element of the `filters` list of the request payload. -/
structure Filter where
  field : String
  operator : String
  value : List String
deriving DecidableEq, Repr

/-- The `sort` sub-object of the request payload (keys `field`, `keyword`). -/
structure SortSpec where
  field : String
  keyword : String
deriving DecidableEq, Repr

/-- The `request_data` sub-object of the request payload. -/
structure RequestData where
  filters : List Filter
  search_from : Int
  search_to : Int
  sort : SortSpec
deriving DecidableEq, Repr

/-- The full request payload dictionary. -/
structure Payload where
  request_data : RequestData
deriving DecidableEq, Repr

/-- The fixed default severity filter list of `get_payload`. -/
def default_filters : List Filter :=
  [{ field := "severity", operator := "in", value := ["low", "medium", "high"] }]

/-- Embedding of `get_payload(start, end, additional_filters=None)`.
`additional_filters or []` in Python yields `[]` both for `None` and for an
empty list, which coincides with `Option.getD _ []` here. -/
def get_payload (start end_ : Int) (additional_filters : Option (List Filter)) : Payload :=
  { request_data :=
    { filters := default_filters ++ additional_filters.getD []
      search_from := start
      search_to := end_
      sort := { field := "creation_time", keyword := "desc" } } }

/-! Section: SHA-256 (embedding of `hashlib.sha256(...).hexdigest()`)

All words are `Nat` kept below `2 ^ 32` by explicit reduction `w32`. -/

/-- Reduce a natural number modulo `2 ^ 32`. -/
def w32 (n : Nat) : Nat := n % 4294967296

/-- Right rotation of a 32-bit word by `k` bits. -/
def rotr32 (k x : Nat) : Nat := w32 ((x >>> k) ||| (x <<< (32 - k)))

/-- Bitwise complement within 32 bits. -/
def not32 (x : Nat) : Nat := x ^^^ 4294967295

/-- SHA-256 choice function. -/
def sha_ch (x y z : Nat) : Nat := (x &&& y) ^^^ (not32 x &&& z)

/-- SHA-256 majority function. -/
def sha_maj (x y z : Nat) : Nat := (x &&& y) ^^^ (x &&& z) ^^^ (y &&& z)

/-- SHA-256 big sigma 0. -/
def bigSigma0 (x : Nat) : Nat := rotr32 2 x ^^^ rotr32 13 x ^^^ rotr32 22 x

/-- SHA-256 big sigma 1. -/
def bigSigma1 (x : Nat) : Nat := rotr32 6 x ^^^ rotr32 11 x ^^^ rotr32 25 x

/-- SHA-256 small sigma 0. -/
def smallSigma0 (x : Nat) : Nat := rotr32 7 x ^^^ rotr32 18 x ^^^ (x >>> 3)

/-- SHA-256 small sigma 1. -/
def smallSigma1 (x : Nat) : Nat := rotr32 17 x ^^^ rotr32 19 x ^^^ (x >>> 10)

/-- The 64 SHA-256 round constants. -/
def shaK : List Nat :=
  [1116352408, 1899447441, 3049323471, 3921009573, 961987163, 1508970993,
   2453635748, 2870763221, 3624381080, 310598401, 607225278, 1426881987,
   1925078388, 2162078206, 2614888103, 3248222580, 3835390401, 4022224774,
   264347078, 604807628, 770255983, 1249150122, 1555081692, 1996064986,
   2554220882, 2821834349, 2952996808, 3210313671, 3336571891, 3584528711,
   113926993, 338241895, 666307205, 773529912, 1294757372, 1396182291,
   1695183700, 1986661051, 2177026350, 2456956037, 2730485921, 2820302411,
   3259730800, 3345764771, 3516065817, 3600352804, 4094571909, 275423344,
   430227734, 506948616, 659060556, 883997877, 958139571, 1322822218,
   1537002063, 1747873779, 1955562222, 2024104815, 2227730452, 2361852424,
   2428436474, 2756734187, 3204031479, 3329325298]

/-- Working state of the SHA-256 compression function. -/
structure HashState where
  a : Nat
  b : Nat
  c : Nat
  d : Nat
  e : Nat
  f : Nat
  g : Nat
  h : Nat
deriving DecidableEq, Repr

/-- The SHA-256 initial hash value. -/
def shaH0 : HashState :=
  ⟨1779033703, 3144134277, 1013904242, 2773480762, 1359893119, 2600822924, 528734635, 1541459225⟩

/-- One step of the message-schedule extension: append word `w[t]` computed
from `w[t-2]`, `w[t-7]`, `w[t-15]`, `w[t-16]`. -/
def scheduleStep (ws : List Nat) : List Nat :=
  ws ++ [w32 (smallSigma1 (ws.getD (ws.length - 2) 0) + ws.getD (ws.length - 7) 0 +
              smallSigma0 (ws.getD (ws.length - 15) 0) + ws.getD (ws.length - 16) 0)]

/-- Extend 16 block words to the 64-entry message schedule. -/
def scheduleW (block : List Nat) : List Nat := Nat.iterate scheduleStep 48 block

/-- One round of the SHA-256 compression function; `kw` is `K[t] + W[t]`. -/
def compressRound (hs : HashState) (kw : Nat) : HashState :=
  let t1 := w32 (hs.h + bigSigma1 hs.e + sha_ch hs.e hs.f hs.g + kw)
  let t2 := w32 (bigSigma0 hs.a + sha_maj hs.a hs.b hs.c)
  ⟨w32 (t1 + t2), hs.a, hs.b, hs.c, w32 (hs.d + t1), hs.e, hs.f, hs.g⟩

/-- Process one 16-word block: run 64 rounds and add back into the state. -/
def processBlock (hs : HashState) (block : List Nat) : HashState :=
  let t := (List.zipWith (fun k w => w32 (k + w)) shaK (scheduleW block)).foldl compressRound hs
  ⟨w32 (hs.a + t.a), w32 (hs.b + t.b), w32 (hs.c + t.c), w32 (hs.d + t.d),
   w32 (hs.e + t.e), w32 (hs.f + t.f), w32 (hs.g + t.g), w32 (hs.h + t.h)⟩

/-- Fold the compression function over successive 16-word blocks. -/
def processWords (hs : HashState) : List Nat → HashState
  | w0 :: w1 :: w2 :: w3 :: w4 :: w5 :: w6 :: w7 ::
    w8 :: w9 :: w10 :: w11 :: w12 :: w13 :: w14 :: w15 :: rest =>
      processWords (processBlock hs [w0, w1, w2, w3, w4, w5, w6, w7,
                                     w8, w9, w10, w11, w12, w13, w14, w15]) rest
  | _ => hs

/-- Big-endian byte rendering of `n` on `k` bytes. -/
def bytesBE : Nat → Nat → List Nat
  | 0, _ => []
  | k + 1, n => bytesBE k (n >>> 8) ++ [n % 256]

/-- SHA-256 padding: a `0x80` byte, zeros to 56 mod 64, then the bit length
on 8 big-endian bytes. -/
def padMsg (msg : List Nat) : List Nat :=
  let z := (119 - msg.length % 64) % 64
  msg ++ [0x80] ++ List.replicate z 0 ++ bytesBE 8 (8 * msg.length)

/-- Pack a byte list into big-endian 32-bit words (groups of 4). -/
def toWords : List Nat → List Nat
  | b0 :: b1 :: b2 :: b3 :: rest =>
      (((b0 * 256 + b1) * 256 + b2) * 256 + b3) :: toWords rest
  | _ => []

/-- The four big-endian bytes of a 32-bit word. -/
def wordBytes (w : Nat) : List Nat :=
  [w / 16777216 % 256, w / 65536 % 256, w / 256 % 256, w % 256]

/-- The 32 digest bytes of a final hash state. -/
def digestBytes (hs : HashState) : List Nat :=
  wordBytes hs.a ++ wordBytes hs.b ++ wordBytes hs.c ++ wordBytes hs.d ++
  wordBytes hs.e ++ wordBytes hs.f ++ wordBytes hs.g ++ wordBytes hs.h

/-- SHA-256 of a byte sequence, as 32 digest bytes. -/
def sha256bytes (msg : List Nat) : List Nat :=
  digestBytes (processWords shaH0 (toWords (padMsg msg)))

/-- The sixteen lowercase hexadecimal digit characters. -/
def hex_chars : List Char := "0123456789abcdef".data

/-- Lowercase hexadecimal digit for `n % 16`. -/
def hexDigit (n : Nat) : Char := hex_chars.getD (n % 16) '0'

/-- Two lowercase hex characters of one byte. -/
def hexByte (b : Nat) : List Char := [hexDigit (b / 16), hexDigit b]

/-- UTF-8 bytes of one character (the encoding `str.encode('utf-8')` uses). -/
def utf8Char (c : Char) : List Nat :=
  let n := c.toNat
  if n < 128 then [n]
  else if n < 2048 then [192 ||| (n >>> 6), 128 ||| (n &&& 63)]
  else if n < 65536 then
    [224 ||| (n >>> 12), 128 ||| ((n >>> 6) &&& 63), 128 ||| (n &&& 63)]
  else
    [240 ||| (n >>> 18), 128 ||| ((n >>> 12) &&& 63), 128 ||| ((n >>> 6) &&& 63), 128 ||| (n &&& 63)]

/-- UTF-8 bytes of a string. -/
def utf8Bytes (s : String) : List Nat := s.data.flatMap utf8Char

/-- Embedding of `hashlib.sha256(s.encode('utf-8')).hexdigest()`: the SHA-256
digest of the UTF-8 bytes of `s`, rendered as lowercase hex. -/
def sha256hex (s : String) : String :=
  String.mk ((sha256bytes (utf8Bytes s)).flatMap hexByte)

/-! Section: Header signer (`get_headers`) -/

/-- The nonce alphabet `ascii_letters + digits` (62 characters). -/
def nonce_alphabet : List Char :=
  "abcdefghijklmnopqrstuvwxyzABCDEFGHIJKLMNOPQRSTUVWXYZ0123456789".data

/-- Embedding of the nonce construction
`''.join([choice(ascii_letters + digits) for _ in range(64)])`.
The CSPRNG is an explicit stream `rng` of draws; `secrets.choice` picking an
element of the 62-character sequence is modelled by indexing with
`rng i % 62`. -/
def mk_nonce (rng : Nat → Nat) : String :=
  String.mk ((List.range 64).map fun i => nonce_alphabet.getD (rng i % nonce_alphabet.length) 'a')

/-- Embedding of `int(datetime.now(timezone.utc).timestamp()) * 1000`:
the clock reading `now_ms` (milliseconds since epoch) is converted to float
seconds by `.timestamp()`, truncated to an integer by `int(...)`, and
multiplied back by 1000. -/
def sign_timestamp (now_ms : Nat) : Nat := now_ms / 1000 * 1000

/-- Embedding of `get_headers(key_id, key, key_type)`.  The headers dict is
modelled as an association list in insertion order.  The clock and the
CSPRNG are the explicit parameters `now_ms` and `rng`. -/
def get_headers (key_id : Int) (key : String) (key_type : String)
    (rng : Nat → Nat) (now_ms : Nat) : List (String × String) :=
  if key_type = "advanced" then
    let nonce := mk_nonce rng
    let timestamp := sign_timestamp now_ms
    let auth_key := key ++ nonce ++ toString timestamp
    [("x-xdr-timestamp", toString timestamp),
     ("x-xdr-nonce", nonce),
     ("x-xdr-auth-id", toString key_id),
     ("Authorization", sha256hex auth_key)]
  else
    [("Authorization", key),
     ("x-xdr-auth-id", toString key_id)]

/-! Section: Response envelope and alert extraction -/

/-- The optional `reply` sub-object of a parsed response. -/
structure ReplyBody (α : Type) where
  alerts : Option (List α)
deriving DecidableEq, Repr

/-- A parsed JSON response envelope; `reply` may be absent. -/
structure Response (α : Type) where
  reply : Option (ReplyBody α)
deriving DecidableEq, Repr

/-- Embedding of `response.get('reply', {}).get('alerts', [])`. -/
def extract_alerts {α : Type} (r : Response α) : List α :=
  match r.reply with
  | none => []
  | some body => body.alerts.getD []

/-! Section: Pagination controller (`retrieve_all_alerts`)

The source abstracts `make_request`: it receives the `start` and `end`
window bounds (the only arguments that vary across the loop) and either
returns the parsed envelope or raises (`Except.error`). -/

/-- Mutable state of the `while True` loop in `retrieve_all_alerts`,
plus a ghost trace `fetches` of every `(start, end)` window requested. -/
structure LoopState (α : Type) where
  all_alerts : List α
  start : Int
  page : Nat
  fetches : List (Int × Int)
deriving DecidableEq, Repr

/-- The initial loop state: `all_alerts = []`, `start = 0`, `page = 1`. -/
def init_state (α : Type) : LoopState α := ⟨[], 0, 1, []⟩

/-- Embedding of the Python truthiness test `max_pages and page >= max_pages`:
`max_pages` is falsy when it is `None` or the integer `0`. -/
def mp_hit (mp : Option Int) (page : Nat) : Bool :=
  match mp with
  | none => false
  | some m => if m = 0 then false else decide ((page : Int) ≥ m)

/-- One iteration of the retrieval loop.  `Sum.inr` is a `break` (the final
state), `Sum.inl` continues with the next state.  Mirrors the body of the
`while True` loop: compute `end = start + count_per_page`, fetch (any raised
exception breaks the loop), break on an empty page, otherwise extend the
accumulator, break if the page ceiling is reached, else advance. -/
def loop_iter {α : Type} (src : Int → Int → Except String (Response α))
    (cpp : Int) (mp : Option Int) (s : LoopState α) : LoopState α ⊕ LoopState α :=
  match src s.start (s.start + cpp) with
  | .error _ =>
      .inr ⟨s.all_alerts, s.start, s.page, s.fetches ++ [(s.start, s.start + cpp)]⟩
  | .ok resp =>
      if (extract_alerts resp).isEmpty then
        .inr ⟨s.all_alerts, s.start, s.page, s.fetches ++ [(s.start, s.start + cpp)]⟩
      else if mp_hit mp s.page then
        .inr ⟨s.all_alerts ++ extract_alerts resp, s.start, s.page,
              s.fetches ++ [(s.start, s.start + cpp)]⟩
      else
        .inl ⟨s.all_alerts ++ extract_alerts resp, s.start + cpp, s.page + 1,
              s.fetches ++ [(s.start, s.start + cpp)]⟩

/-- Fuel-indexed run of the retrieval loop; `none` means the fuel was
exhausted before the loop terminated (the Python loop would still be
running). -/
def run_loop {α : Type} (src : Int → Int → Except String (Response α))
    (cpp : Int) (mp : Option Int) : Nat → LoopState α → Option (LoopState α)
  | 0, _ => none
  | fuel + 1, s =>
      match loop_iter src cpp mp s with
      | .inr final => some final
      | .inl next => run_loop src cpp mp fuel next

/-- Embedding of `retrieve_all_alerts`: run the loop from the initial state
and return the accumulated list.  The function always returns normally in
Python (every exception is caught inside the loop), which is reflected here
by a plain list, not an `Except`. -/
def retrieve_all_alerts {α : Type} (src : Int → Int → Except String (Response α))
    (cpp : Int) (mp : Option Int) (fuel : Nat) : Option (List α) :=
  (run_loop src cpp mp fuel (init_state α)).map LoopState.all_alerts

/-- The window `(start, end)` the loop requests for 0-based page index `j`. -/
def window (cpp : Int) (j : Nat) : Int × Int := ((j : Int) * cpp, (j : Int) * cpp + cpp)

/-- The windows of the first `k` fetches. -/
def windows (cpp : Int) (k : Nat) : List (Int × Int) := (List.range k).map (window cpp)

/-- The alerts the source yields for 0-based page index `j` (empty when the
source raises there). -/
def page_alerts {α : Type} (src : Int → Int → Except String (Response α))
    (cpp : Int) (j : Nat) : List α :=
  match src ((j : Int) * cpp) ((j : Int) * cpp + cpp) with
  | .ok r => extract_alerts r
  | .error _ => []

/-- Concatenation, in fetch order, of the alerts of pages `0 .. k-1`. -/
def pages_concat {α : Type} (src : Int → Int → Except String (Response α))
    (cpp : Int) (k : Nat) : List α :=
  (List.range k).flatMap (page_alerts src cpp)

/-! Section: Result sink (`save_alerts_to_file` and `upload_to_s3`)

The filesystem and S3 collaborators are abstracted into success flags, and
a ghost trace records every storage operation attempted. -/

/-- A storage operation attempted by the result sink. -/
inductive StorageOp where
  | file_write (filename : String)
  | s3_put (bucket : String) (key : String)
deriving DecidableEq, Repr

/-- Outcomes of the two storage collaborators: does writing the local JSON
file succeed, and does the S3 upload succeed. -/
structure StorageEnv where
  file_ok : Bool
  s3_ok : Bool
deriving DecidableEq, Repr

/-- Embedding of `os.path.basename` for POSIX paths: the characters after
the last slash. -/
def basename (p : String) : String :=
  String.mk (p.data.foldl (fun acc c => if c = '/' then [] else acc ++ [c]) [])

/-- Embedding of `upload_to_s3(file_path, bucket_name)`: attempts the upload
under key `cortex-alerts/<basename>`; returns `True` on success and `False`
on any exception (`ClientError` or otherwise), never raising.  Also returns
the attempted operation for the ghost trace. -/
def upload_to_s3 (env : StorageEnv) (file_path bucket_name : String) :
    Bool × List StorageOp :=
  (env.s3_ok, [.s3_put bucket_name ("cortex-alerts/" ++ basename file_path)])

/-- Embedding of `save_alerts_to_file(alerts, base_filename=None)`:
returns `None` (the "nothing written" sentinel) without touching storage
when `alerts` is empty; otherwise writes `<base>.json` (any exception is
caught, returning `None` with no upload attempted) and then calls
`upload_to_s3`, whose result is ignored.  `now_iso` stands for
`datetime.now().isoformat()`.  The second component is the ghost trace of
attempted storage operations. -/
def save_alerts_to_file {α : Type} (alerts : List α) (env : StorageEnv)
    (base_filename : Option String) (now_iso : String) :
    Option String × List StorageOp :=
  if alerts.isEmpty then (none, [])
  else
    let base := base_filename.getD ("cortex-alerts-" ++ now_iso)
    let filename := base ++ ".json"
    if env.file_ok then
      let up := upload_to_s3 env filename "db-pan-bucket"
      (some filename, .file_write filename :: up.2)
    else
      (none, [.file_write filename])

/-! Section: CLI entry point (`main`) -/

/-- The eight positional CLI arguments after parsing (`int(...)` applied to
`key_id`, `start`, `count_per_page`, `max_pages`). -/
structure Args where
  key_id : Int
  key : String
  key_type : String
  fqdn : String
  endpoint : String
  start : Int
  count_per_page : Int
  max_pages : Int
deriving DecidableEq, Repr

/-- Outcome of one completed run of `main` (after successful argument
parsing): the process exit code, the accumulator handed to the result sink,
the sink's return value, and the trace of attempted storage operations. -/
structure MainOutcome (α : Type) where
  exit_code : Nat
  sink_input : List α
  sink_result : Option String
  ops : List StorageOp
deriving DecidableEq, Repr

/-- Embedding of `main` after argument parsing: call `retrieve_all_alerts`
with `count_per_page` and `max_pages` (the parsed `start` argument is never
passed on), then hand the accumulator to `save_alerts_to_file`.  Neither
callee raises, so the `except` clause of `main` is unreachable and the
process exits with code 0.  `none` means the retrieval loop had not yet
terminated within `fuel` iterations. -/
def main_run {α : Type} (src : Int → Int → Except String (Response α))
    (args : Args) (env : StorageEnv) (now_iso : String) (fuel : Nat) :
    Option (MainOutcome α) :=
  match run_loop src args.count_per_page (some args.max_pages) fuel (init_state α) with
  | none => none
  | some st =>
      let saved := save_alerts_to_file st.all_alerts env none now_iso
      some ⟨0, st.all_alerts, saved.1, saved.2⟩

/-! Section: Concrete example data used by witnesses and counterexamples -/

/-- A source that always returns one alert per page. -/
def src_const : Int → Int → Except String (Response Nat) :=
  fun _ _ => .ok ⟨some ⟨some [7]⟩⟩

/-- A source returning two non-empty pages (at offsets 0 and 100) and then
empty pages. -/
def src_two_then_empty : Int → Int → Except String (Response Nat) :=
  fun s _ =>
    if s = 0 then .ok ⟨some ⟨some [1, 2]⟩⟩
    else if s = 100 then .ok ⟨some ⟨some [3]⟩⟩
    else .ok ⟨some ⟨some []⟩⟩

/-- A source succeeding with five alerts on the first page (offset 0) and
raising a transport error on every later page. -/
def src_five_then_error : Int → Int → Except String (Response Nat) :=
  fun s _ =>
    if s = 0 then .ok ⟨some ⟨some [1, 2, 3, 4, 5]⟩⟩
    else .error "transport error"

/-- A source succeeding with five alerts on the first page and returning an
empty page afterwards. -/
def src_five_then_empty : Int → Int → Except String (Response Nat) :=
  fun s _ =>
    if s = 0 then .ok ⟨some ⟨some [1, 2, 3, 4, 5]⟩⟩
    else .ok ⟨some ⟨some []⟩⟩

/-- A source whose first page is already empty. -/
def src_empty : Int → Int → Except String (Response Nat) :=
  fun _ _ => .ok ⟨some ⟨some []⟩⟩

/-- Concrete parsed CLI arguments for witnesses. -/
def args_example : Args :=
  ⟨7, "my-key", "standard", "api.example.com", "/public_api/v1/alerts/get_alerts_multi_events", 0, 100, 10⟩

/-! Section: Helper lemmas -/

/-- Unfolding of `run_loop` for one unit of fuel. -/
theorem run_loop_succ {α : Type} (src : Int → Int → Except String (Response α))
    (cpp : Int) (mp : Option Int) (fuel : Nat) (s : LoopState α) :
    run_loop src cpp mp (fuel + 1) s =
      match loop_iter src cpp mp s with
      | .inr final => some final
      | .inl next => run_loop src cpp mp fuel next := rfl

/-- The page-ceiling test is false when the ceiling is unset, zero, or not
yet reached. -/
theorem mp_hit_false {mp : Option Int} {p : Nat}
    (h : ∀ m : Int, mp = some m → m ≠ 0 → (p : Int) < m) : mp_hit mp p = false := by
  cases mp with
  | none => rfl
  | some m =>
      by_cases hm : m = 0
      · simp [mp_hit, hm]
      · have hlt := h m rfl hm
        simp only [mp_hit, if_neg hm, decide_eq_false_iff_not]
        omega

/-- The page-ceiling test is true when the ceiling is a nonzero integer at
most the current page number. -/
theorem mp_hit_true {m : Int} {p : Nat} (h0 : m ≠ 0) (h : m ≤ (p : Int)) :
    mp_hit (some m) p = true := by
  simp only [mp_hit, if_neg h0, decide_eq_true_iff]
  omega

/-- An element fetched with `getD` at a reduced index is in the list. -/
theorem getD_mod_mem (l : List Char) (d : Char) (k : Nat) (hl : 0 < l.length) :
    l.getD (k % l.length) d ∈ l := by
  have hk : k % l.length < l.length := Nat.mod_lt _ hl
  rw [List.getD_eq_getElem?_getD, List.getElem?_eq_getElem hk]
  exact List.get_mem l _ _

/-! Section: Claim theorems: payload builder and result sink -/

/-- C7: for all start, end and optional extra filters, the payload's filter
sequence has the default severity filter (severity in low/medium/high) as
its first element, followed by the extra filters in their given order;
start and end pass through unchanged as search_from and search_to, and the
sort is always by creation time, descending. -/
theorem get_payload_shape (start end_ : Int) (extra : Option (List Filter)) :
    (get_payload start end_ extra).request_data.filters =
      { field := "severity", operator := "in", value := ["low", "medium", "high"] } :: extra.getD []
    ∧ (get_payload start end_ extra).request_data.search_from = start
    ∧ (get_payload start end_ extra).request_data.search_to = end_
    ∧ (get_payload start end_ extra).request_data.sort = ⟨"creation_time", "desc"⟩ :=
  ⟨rfl, rfl, rfl, rfl⟩

/-- C8: with an empty accumulated alert sequence the result sink attempts no
storage operation at all and returns the "nothing written" sentinel `none`
instead of a filename, for every storage environment, base filename and
clock reading. -/
theorem save_alerts_empty_no_write (α : Type) (env : StorageEnv)
    (base_filename : Option String) (now_iso : String) :
    save_alerts_to_file ([] : List α) env base_filename now_iso = (none, []) := rfl

/-! Section: Claim theorems: header signer -/

/-- C9: for every key type other than "advanced" — "standard" or any other
string — the header signer returns exactly the two headers Authorization
(the literal key) and x-xdr-auth-id (the rendered key id). -/
theorem get_headers_non_advanced (key_id : Int) (key key_type : String)
    (rng : Nat → Nat) (now_ms : Nat) (h : key_type ≠ "advanced") :
    get_headers key_id key key_type rng now_ms =
      [("Authorization", key), ("x-xdr-auth-id", toString key_id)] := by
  simp [get_headers, h]

/-- Witness for C9 at key type "standard". -/
theorem get_headers_non_advanced_witness :
    ("standard" : String) ≠ "advanced" ∧
    get_headers 7 "my-key" "standard" (fun _ => 0) 0 =
      [("Authorization", "my-key"), ("x-xdr-auth-id", "7")] :=
  ⟨by decide,
   (get_headers_non_advanced 7 "my-key" "standard" (fun _ => 0) 0 (by decide)).trans (by decide)⟩

/-- C6: for key type "advanced" the returned headers are exactly
x-xdr-timestamp (the rendered signing timestamp), x-xdr-nonce, x-xdr-auth-id
(the rendered key id) and Authorization, where Authorization is the SHA-256
digest of key ++ nonce ++ str(timestamp) rendered as lowercase hex
(`sha256hex`), and the nonce is 64 characters drawn from the 62-character
letters-plus-digits alphabet. -/
theorem get_headers_advanced_shape (key_id : Int) (key : String)
    (rng : Nat → Nat) (now_ms : Nat) :
    get_headers key_id key "advanced" rng now_ms =
      [("x-xdr-timestamp", toString (sign_timestamp now_ms)),
       ("x-xdr-nonce", mk_nonce rng),
       ("x-xdr-auth-id", toString key_id),
       ("Authorization", sha256hex (key ++ mk_nonce rng ++ toString (sign_timestamp now_ms)))]
    ∧ (mk_nonce rng).length = 64
    ∧ ∀ c ∈ (mk_nonce rng).data, c ∈ nonce_alphabet := by
  refine ⟨by simp [get_headers], by simp [mk_nonce, String.length], ?_⟩
  intro c hc
  have hc' : c ∈ (List.range 64).map
      (fun i => nonce_alphabet.getD (rng i % nonce_alphabet.length) 'a') := hc
  obtain ⟨i, -, rfl⟩ := List.mem_map.mp hc'
  exact getD_mod_mem _ _ _ (by decide)

/-- C5 counterexample: at clock reading 1500 milliseconds since epoch, the
x-xdr-timestamp header value is "1000", not "1500": `get_headers` truncates
the clock to whole seconds before scaling back to milliseconds, so the
produced timestamp differs from the clock reading. -/
theorem sign_timestamp_not_clock_cex :
    (get_headers 1 "k" "advanced" (fun _ => 0) 1500).head? =
      some ("x-xdr-timestamp", toString (sign_timestamp 1500))
    ∧ sign_timestamp 1500 = 1000 ∧ (1000 : Nat) ≠ 1500 :=
  ⟨by simp [get_headers], by decide, by decide⟩

/-- C5 amended: for key type advanced, the x-xdr-timestamp header value is
the clock reading in milliseconds truncated down to a whole second and
re-expressed in milliseconds (t - t % 1000); it equals the clock reading
exactly when the reading is a whole number of seconds. -/
theorem sign_timestamp_truncates (key_id : Int) (key : String)
    (rng : Nat → Nat) (t : Nat) :
    (get_headers key_id key "advanced" rng t).head? =
      some ("x-xdr-timestamp", toString (sign_timestamp t))
    ∧ sign_timestamp t = t - t % 1000
    ∧ (sign_timestamp t = t ↔ t % 1000 = 0) := by
  refine ⟨by simp [get_headers], ?_, ?_⟩
  · unfold sign_timestamp; omega
  · unfold sign_timestamp
    constructor <;> intro h <;> omega

/-- One unit of fuel when the iteration breaks. -/
theorem run_loop_succ_inr {α : Type} {src : Int → Int → Except String (Response α)}
    {cpp : Int} {mp : Option Int} {s final : LoopState α} (fuel : Nat)
    (h : loop_iter src cpp mp s = .inr final) :
    run_loop src cpp mp (fuel + 1) s = some final := by
  rw [run_loop_succ, h]

/-- One unit of fuel when the iteration continues. -/
theorem run_loop_succ_inl {α : Type} {src : Int → Int → Except String (Response α)}
    {cpp : Int} {mp : Option Int} {s next : LoopState α} (fuel : Nat)
    (h : loop_iter src cpp mp s = .inl next) :
    run_loop src cpp mp (fuel + 1) s = run_loop src cpp mp fuel next := by
  rw [run_loop_succ, h]

/-- Running the loop across `k` consecutive successful non-empty pages that
do not reach the page ceiling advances the state by `k` pages: the pages are
appended to the accumulator in fetch order and their windows to the fetch
trace. -/
theorem run_loop_seg {α : Type} (src : Int → Int → Except String (Response α))
    (cpp : Int) (mp : Option Int) (k : Nat) :
    ∀ (q fuel : Nat) (acc : List α) (tr : List (Int × Int)),
    (∀ j, q ≤ j → j < q + k →
        ∃ r, src ((j : Int) * cpp) ((j : Int) * cpp + cpp) = .ok r ∧ extract_alerts r ≠ [])
    → (∀ j, q ≤ j → j < q + k → mp_hit mp (j + 1) = false)
    → run_loop src cpp mp (k + fuel) ⟨acc, (q : Int) * cpp, q + 1, tr⟩
      = run_loop src cpp mp fuel
          ⟨acc ++ (List.range' q k).flatMap (page_alerts src cpp),
           ((q + k : Nat) : Int) * cpp, q + k + 1,
           tr ++ (List.range' q k).map (window cpp)⟩ := by
  induction k with
  | zero =>
      intro q fuel acc tr _ _
      simp
  | succ k ih =>
      intro q fuel acc tr hok hmp
      obtain ⟨r, hr, hne⟩ := hok q (le_refl q) (by omega)
      have hempty : (extract_alerts r).isEmpty = false := List.isEmpty_eq_false.mpr hne
      have hmp0 : mp_hit mp (q + 1) = false := hmp q (le_refl q) (by omega)
      have hiter : loop_iter src cpp mp ⟨acc, (q : Int) * cpp, q + 1, tr⟩ =
          .inl ⟨acc ++ extract_alerts r, (q : Int) * cpp + cpp, q + 1 + 1,
                tr ++ [((q : Int) * cpp, (q : Int) * cpp + cpp)]⟩ := by
        simp [loop_iter, hr, hempty, hmp0]
      rw [show k + 1 + fuel = k + fuel + 1 by omega, run_loop_succ_inl (k + fuel) hiter]
      have hstep := ih (q + 1) fuel (acc ++ extract_alerts r)
        (tr ++ [((q : Int) * cpp, (q : Int) * cpp + cpp)])
        (fun j h1 h2 => hok j (by omega) (by omega))
        (fun j h1 h2 => hmp j (by omega) (by omega))
      rw [show ((q + 1 : Nat) : Int) * cpp = (q : Int) * cpp + cpp by push_cast; ring] at hstep
      rw [hstep]
      congr 1
      have hpa : page_alerts src cpp q = extract_alerts r := by
        simp [page_alerts, hr]
      simp only [LoopState.mk.injEq]
      refine ⟨?_, ?_, by omega, ?_⟩
      · rw [List.range'_succ, List.flatMap_cons, hpa, List.append_assoc]
      · rw [show q + 1 + k = q + (k + 1) by omega]
      · rw [List.range'_succ, List.map_cons, List.append_assoc]
        rfl

/-! Section: Claim theorems: pagination controller -/

/-- C1: with a source that always returns non-empty pages and a page ceiling
n ≥ 1, the controller performs exactly n fetches — at the canonical windows
0..n-1 — and returns the concatenation of those n pages in fetch order. -/
theorem retrieve_max_pages_bound {α : Type} (src : Int → Int → Except String (Response α))
    (cpp : Int) (n : Nat) (hn : 1 ≤ n)
    (hsrc : ∀ s e : Int, ∃ r, src s e = .ok r ∧ extract_alerts r ≠ [])
    (fuel : Nat) (hfuel : n ≤ fuel) :
    retrieve_all_alerts src cpp (some (n : Int)) fuel = some (pages_concat src cpp n)
    ∧ (run_loop src cpp (some (n : Int)) fuel (init_state α)).map LoopState.fetches
        = some (windows cpp n)
    ∧ (windows cpp n).length = n := by
  obtain ⟨m, rfl⟩ : ∃ m, n = m + 1 := ⟨n - 1, by omega⟩
  obtain ⟨r, hr, hne⟩ := hsrc ((m : Int) * cpp) ((m : Int) * cpp + cpp)
  have hempty : (extract_alerts r).isEmpty = false := List.isEmpty_eq_false.mpr hne
  have hhit : mp_hit (some ((m : Int) + 1)) (m + 1) = true :=
    mp_hit_true (by omega) (by push_cast; omega)
  have hiter : loop_iter src cpp (some ((m + 1 : Nat) : Int))
      ⟨(List.range' 0 m).flatMap (page_alerts src cpp), (m : Int) * cpp, m + 1,
       (List.range' 0 m).map (window cpp)⟩ =
      .inr ⟨(List.range' 0 m).flatMap (page_alerts src cpp) ++ extract_alerts r,
            (m : Int) * cpp, m + 1,
            (List.range' 0 m).map (window cpp) ++ [((m : Int) * cpp, (m : Int) * cpp + cpp)]⟩ := by
    simp [loop_iter, hr, hempty, hhit]
  have hseg := run_loop_seg src cpp (some ((m + 1 : Nat) : Int)) m 0 (fuel - m) [] []
    (fun j _ _ => hsrc _ _)
    (fun j _ hj => mp_hit_false (by intro m' hm' h0; injection hm' with hm'; omega))
  simp only [Nat.cast_zero, zero_mul, Nat.zero_add, List.nil_append] at hseg
  rw [show m + (fuel - m) = fuel by omega] at hseg
  obtain ⟨f, hf⟩ : ∃ f, fuel - m = f + 1 := ⟨fuel - m - 1, by omega⟩
  rw [hf] at hseg
  have hrun : run_loop src cpp (some ((m + 1 : Nat) : Int)) fuel (init_state α) =
      some ⟨(List.range' 0 m).flatMap (page_alerts src cpp) ++ extract_alerts r,
            (m : Int) * cpp, m + 1,
            (List.range' 0 m).map (window cpp) ++ [((m : Int) * cpp, (m : Int) * cpp + cpp)]⟩ := by
    rw [show init_state α = ⟨[], 0, 1, []⟩ from rfl]
    rw [hseg, run_loop_succ_inr f hiter]
  have hpa : page_alerts src cpp m = extract_alerts r := by
    simp [page_alerts, hr]
  refine ⟨?_, ?_, by simp [windows]⟩
  · rw [retrieve_all_alerts, hrun]
    simp only [Option.map_some', Option.some.injEq]
    rw [pages_concat, List.range_eq_range', List.range'_concat, List.flatMap_append]
    simp [hpa]
  · rw [hrun]
    simp only [Option.map_some', Option.some.injEq]
    rw [windows, List.range_eq_range', List.range'_concat, List.map_append]
    simp [window]

/-- C2: with a source returning k non-empty pages followed by an empty page,
and the page ceiling (when set and nonzero) at least k+1, the controller
returns exactly the concatenation of the k non-empty pages, performs exactly
k+1 fetches (at the canonical windows 0..k), and issues no fetch after the
empty page. -/
theorem retrieve_stops_on_empty_page {α : Type} (src : Int → Int → Except String (Response α))
    (cpp : Int) (mp : Option Int) (k : Nat)
    (hok : ∀ j, j < k →
        ∃ r, src ((j : Int) * cpp) ((j : Int) * cpp + cpp) = .ok r ∧ extract_alerts r ≠ [])
    (hempty : ∃ r, src ((k : Int) * cpp) ((k : Int) * cpp + cpp) = .ok r ∧ extract_alerts r = [])
    (hmp : ∀ m : Int, mp = some m → m ≠ 0 → (k : Int) + 1 ≤ m)
    (fuel : Nat) (hfuel : k + 1 ≤ fuel) :
    retrieve_all_alerts src cpp mp fuel = some (pages_concat src cpp k)
    ∧ (run_loop src cpp mp fuel (init_state α)).map LoopState.fetches = some (windows cpp (k + 1))
    ∧ (windows cpp (k + 1)).length = k + 1 := by
  obtain ⟨r, hr, he⟩ := hempty
  have hiter : loop_iter src cpp mp
      ⟨(List.range' 0 k).flatMap (page_alerts src cpp), (k : Int) * cpp, k + 1,
       (List.range' 0 k).map (window cpp)⟩ =
      .inr ⟨(List.range' 0 k).flatMap (page_alerts src cpp), (k : Int) * cpp, k + 1,
            (List.range' 0 k).map (window cpp) ++ [((k : Int) * cpp, (k : Int) * cpp + cpp)]⟩ := by
    simp [loop_iter, hr, he]
  have hseg := run_loop_seg src cpp mp k 0 (fuel - k) [] []
    (fun j _ hj => hok j (by omega))
    (fun j _ hj => mp_hit_false (by
      intro m' hm' h0
      have := hmp m' hm' h0
      push_cast
      omega))
  simp only [Nat.cast_zero, zero_mul, Nat.zero_add, List.nil_append] at hseg
  rw [show k + (fuel - k) = fuel by omega] at hseg
  obtain ⟨f, hf⟩ : ∃ f, fuel - k = f + 1 := ⟨fuel - k - 1, by omega⟩
  rw [hf] at hseg
  have hrun : run_loop src cpp mp fuel (init_state α) =
      some ⟨(List.range' 0 k).flatMap (page_alerts src cpp), (k : Int) * cpp, k + 1,
            (List.range' 0 k).map (window cpp) ++ [((k : Int) * cpp, (k : Int) * cpp + cpp)]⟩ := by
    rw [show init_state α = ⟨[], 0, 1, []⟩ from rfl]
    rw [hseg, run_loop_succ_inr f hiter]
  refine ⟨?_, ?_, by simp [windows]⟩
  · rw [retrieve_all_alerts, hrun]
    simp only [Option.map_some', Option.some.injEq]
    rw [pages_concat, List.range_eq_range']
  · rw [hrun]
    simp only [Option.map_some', Option.some.injEq]
    rw [windows, List.range_eq_range', List.range'_concat, List.map_append]
    simp [window]

/-- C3: when the fetch raises on the page after k successful non-empty pages
(with the page ceiling, when nonzero, not yet reached), the controller stops
without propagating an exception, returns exactly the records of the k
successful pages, and main still hands that partial accumulator to the
result sink. -/
theorem retrieve_fail_fast_partial {α : Type} (src : Int → Int → Except String (Response α))
    (args : Args) (env : StorageEnv) (now_iso : String) (k : Nat)
    (hok : ∀ j, j < k →
        ∃ r, src ((j : Int) * args.count_per_page) ((j : Int) * args.count_per_page + args.count_per_page)
          = .ok r ∧ extract_alerts r ≠ [])
    (herr : ∃ msg, src ((k : Int) * args.count_per_page)
        ((k : Int) * args.count_per_page + args.count_per_page) = .error msg)
    (hmp : args.max_pages ≠ 0 → (k : Int) < args.max_pages)
    (fuel : Nat) (hfuel : k + 1 ≤ fuel) :
    retrieve_all_alerts src args.count_per_page (some args.max_pages) fuel
      = some (pages_concat src args.count_per_page k)
    ∧ (run_loop src args.count_per_page (some args.max_pages) fuel (init_state α)).map
        LoopState.fetches = some (windows args.count_per_page (k + 1))
    ∧ (main_run src args env now_iso fuel).map MainOutcome.sink_input
        = some (pages_concat src args.count_per_page k)
    ∧ (main_run src args env now_iso fuel).map MainOutcome.exit_code = some 0 := by
  obtain ⟨msg, hr⟩ := herr
  have hiter : loop_iter src args.count_per_page (some args.max_pages)
      ⟨(List.range' 0 k).flatMap (page_alerts src args.count_per_page),
       (k : Int) * args.count_per_page, k + 1,
       (List.range' 0 k).map (window args.count_per_page)⟩ =
      .inr ⟨(List.range' 0 k).flatMap (page_alerts src args.count_per_page),
            (k : Int) * args.count_per_page, k + 1,
            (List.range' 0 k).map (window args.count_per_page) ++
              [((k : Int) * args.count_per_page,
                (k : Int) * args.count_per_page + args.count_per_page)]⟩ := by
    simp [loop_iter, hr]
  have hseg := run_loop_seg src args.count_per_page (some args.max_pages) k 0 (fuel - k) [] []
    (fun j _ hj => hok j (by omega))
    (fun j _ hj => mp_hit_false (by
      intro m' hm' h0
      injection hm' with hm'
      have := hmp (by omega)
      push_cast
      omega))
  simp only [Nat.cast_zero, zero_mul, Nat.zero_add, List.nil_append] at hseg
  rw [show k + (fuel - k) = fuel by omega] at hseg
  obtain ⟨f, hf⟩ : ∃ f, fuel - k = f + 1 := ⟨fuel - k - 1, by omega⟩
  rw [hf] at hseg
  have hrun : run_loop src args.count_per_page (some args.max_pages) fuel (init_state α) =
      some ⟨(List.range' 0 k).flatMap (page_alerts src args.count_per_page),
            (k : Int) * args.count_per_page, k + 1,
            (List.range' 0 k).map (window args.count_per_page) ++
              [((k : Int) * args.count_per_page,
                (k : Int) * args.count_per_page + args.count_per_page)]⟩ := by
    rw [show init_state α = ⟨[], 0, 1, []⟩ from rfl]
    rw [hseg, run_loop_succ_inr f hiter]
  refine ⟨?_, ?_, ?_, ?_⟩
  · rw [retrieve_all_alerts, hrun]
    simp only [Option.map_some', Option.some.injEq]
    rw [pages_concat, List.range_eq_range']
  · rw [hrun]
    simp only [Option.map_some', Option.some.injEq]
    rw [windows, List.range_eq_range', List.range'_concat, List.map_append]
    simp [window]
  · rw [main_run, hrun]
    simp only [Option.map_some', Option.some.injEq]
    rw [pages_concat, List.range_eq_range']
  · rw [main_run, hrun]
    rfl

/-- Invariant of the retrieval loop: starting from the canonical state of
page index p (start = p * cpp, page = p + 1, trace = windows 0..p-1), any
terminating run ends with a fetch trace that is exactly the canonical
windows 0..n-1 for some n. -/
theorem run_loop_fetch_windows {α : Type} (src : Int → Int → Except String (Response α))
    (cpp : Int) (mp : Option Int) (fuel : Nat) :
    ∀ (p : Nat) (acc : List α) (st : LoopState α),
      run_loop src cpp mp fuel ⟨acc, (p : Int) * cpp, p + 1, windows cpp p⟩ = some st →
      ∃ n, st.fetches = windows cpp n := by
  induction fuel with
  | zero =>
      intro p acc st h
      exact absurd h (by simp [run_loop])
  | succ fuel ih =>
      intro p acc st h
      have hwin : windows cpp p ++ [((p : Int) * cpp, (p : Int) * cpp + cpp)] =
          windows cpp (p + 1) := by
        rw [windows, windows, List.range_succ, List.map_append]
        rfl
      cases hsrc : src ((p : Int) * cpp) ((p : Int) * cpp + cpp) with
      | error msg =>
          have hiter : loop_iter src cpp mp ⟨acc, (p : Int) * cpp, p + 1, windows cpp p⟩ =
              .inr ⟨acc, (p : Int) * cpp, p + 1, windows cpp p ++
                [((p : Int) * cpp, (p : Int) * cpp + cpp)]⟩ := by
            simp [loop_iter, hsrc]
          rw [run_loop_succ_inr fuel hiter] at h
          injection h with h
          exact ⟨p + 1, by rw [← h, hwin]⟩
      | ok r =>
          by_cases hne : extract_alerts r = []
          · have hiter : loop_iter src cpp mp ⟨acc, (p : Int) * cpp, p + 1, windows cpp p⟩ =
                .inr ⟨acc, (p : Int) * cpp, p + 1, windows cpp p ++
                  [((p : Int) * cpp, (p : Int) * cpp + cpp)]⟩ := by
              simp [loop_iter, hsrc, hne]
            rw [run_loop_succ_inr fuel hiter] at h
            injection h with h
            exact ⟨p + 1, by rw [← h, hwin]⟩
          · have hempty : (extract_alerts r).isEmpty = false := List.isEmpty_eq_false.mpr hne
            cases hhit : mp_hit mp (p + 1) with
            | true =>
                have hiter : loop_iter src cpp mp ⟨acc, (p : Int) * cpp, p + 1, windows cpp p⟩ =
                    .inr ⟨acc ++ extract_alerts r, (p : Int) * cpp, p + 1, windows cpp p ++
                      [((p : Int) * cpp, (p : Int) * cpp + cpp)]⟩ := by
                  simp [loop_iter, hsrc, hempty, hhit]
                rw [run_loop_succ_inr fuel hiter] at h
                injection h with h
                exact ⟨p + 1, by rw [← h, hwin]⟩
            | false =>
                have hnext : (⟨acc ++ extract_alerts r, (p : Int) * cpp + cpp, p + 1 + 1,
                    windows cpp p ++ [((p : Int) * cpp, (p : Int) * cpp + cpp)]⟩ : LoopState α) =
                    ⟨acc ++ extract_alerts r, ((p + 1 : Nat) : Int) * cpp, (p + 1) + 1,
                      windows cpp (p + 1)⟩ := by
                  rw [hwin]
                  congr 1
                  push_cast
                  ring
                have hiter : loop_iter src cpp mp ⟨acc, (p : Int) * cpp, p + 1, windows cpp p⟩ =
                    .inl ⟨acc ++ extract_alerts r, ((p + 1 : Nat) : Int) * cpp, (p + 1) + 1,
                      windows cpp (p + 1)⟩ := by
                  rw [← hnext]
                  simp [loop_iter, hsrc, hempty, hhit]
                rw [run_loop_succ_inl fuel hiter] at h
                exact ih (p + 1) (acc ++ extract_alerts r) st h

/-- C10: the retrieval result is independent of the parsed CLI start
argument — two main runs differing only in `start` are identical — and
whenever the loop terminates, its i-th fetch (0-based) uses the window
whose payload carries search_from = i * pageSize and
search_to = i * pageSize + pageSize, so pagination always begins at
offset 0. -/
theorem main_start_arg_unused {α : Type} (src : Int → Int → Except String (Response α))
    (args : Args) (env : StorageEnv) (now_iso : String) (fuel : Nat) (s1 s2 : Int)
    (st : LoopState α) (i : Nat)
    (hst : run_loop src args.count_per_page (some args.max_pages) fuel (init_state α) = some st)
    (hi : i < st.fetches.length) :
    main_run src { args with start := s1 } env now_iso fuel
      = main_run src { args with start := s2 } env now_iso fuel
    ∧ st.fetches.get ⟨i, hi⟩
        = ((i : Int) * args.count_per_page, (i : Int) * args.count_per_page + args.count_per_page)
    ∧ (get_payload (st.fetches.get ⟨i, hi⟩).1 (st.fetches.get ⟨i, hi⟩).2
        none).request_data.search_from = (i : Int) * args.count_per_page
    ∧ (get_payload (st.fetches.get ⟨i, hi⟩).1 (st.fetches.get ⟨i, hi⟩).2
        none).request_data.search_to
        = (i : Int) * args.count_per_page + args.count_per_page := by
  have hst0 : run_loop src args.count_per_page (some args.max_pages) fuel
      ⟨[], ((0 : Nat) : Int) * args.count_per_page, 0 + 1,
       windows args.count_per_page 0⟩ = some st := by
    rw [show (⟨[], ((0 : Nat) : Int) * args.count_per_page, 0 + 1,
        windows args.count_per_page 0⟩ : LoopState α) = init_state α by
      simp [init_state, windows]]
    exact hst
  obtain ⟨n, hn⟩ := run_loop_fetch_windows src args.count_per_page (some args.max_pages)
    fuel 0 [] st hst0
  have hwin : st.fetches.get ⟨i, hi⟩ = window args.count_per_page i := by
    have hi' : i < n := by
      have := hi
      rw [hn] at this
      simpa [windows] using this
    simp [List.get_eq_getElem, hn, windows]
  refine ⟨rfl, ?_, ?_, ?_⟩
  · rw [hwin]; rfl
  · rw [hwin]; rfl
  · rw [hwin]; rfl

/-! Section: Claim theorems: storage-failure handling (main) -/

/-- C4 counterexample: a run whose retrieval succeeds with five alerts but
whose S3 upload fails still completes with exit code 0 — the storage-write
failure is not surfaced as the run's terminal failure. -/
theorem storage_failure_exit_zero_cex :
    (main_run src_five_then_empty args_example ⟨true, false⟩ "T" 5).map MainOutcome.exit_code
      = some 0
    ∧ (main_run src_five_then_empty args_example ⟨true, false⟩ "T" 5).map MainOutcome.sink_input
      = some [1, 2, 3, 4, 5]
    ∧ (upload_to_s3 ⟨true, false⟩ "cortex-alerts-T.json" "db-pan-bucket").1 = false :=
  ⟨by decide, by decide, rfl⟩

/-- C4 amended: a storage-write failure is swallowed, not surfaced:
`upload_to_s3` catches the error and returns False, `save_alerts_to_file`
ignores that Boolean, `main` ignores the sink's result, and every completed
run exits with code 0 even when the S3 write failed. -/
theorem storage_failure_swallowed {α : Type} (src : Int → Int → Except String (Response α))
    (args : Args) (env : StorageEnv) (now_iso : String) (fuel : Nat) (o : MainOutcome α)
    (henv : env.s3_ok = false)
    (h : main_run src args env now_iso fuel = some o) :
    o.exit_code = 0
    ∧ (upload_to_s3 env "cortex-alerts-T.json" "db-pan-bucket").1 = false := by
  refine ⟨?_, henv⟩
  cases hr : run_loop src args.count_per_page (some args.max_pages) fuel (init_state α) with
  | none =>
      rw [main_run, hr] at h
      cases h
  | some st =>
      rw [main_run, hr] at h
      injection h with h
      rw [← h]

/-- Witness for C4 amended at a concrete failing S3 environment. -/
theorem storage_failure_swallowed_witness :
    ((⟨0, [1, 2, 3, 4, 5], some "cortex-alerts-T.json",
       [StorageOp.file_write "cortex-alerts-T.json",
        StorageOp.s3_put "db-pan-bucket" "cortex-alerts/cortex-alerts-T.json"]⟩ :
      MainOutcome Nat).exit_code = 0)
    ∧ (upload_to_s3 ⟨true, false⟩ "cortex-alerts-T.json" "db-pan-bucket").1 = false :=
  storage_failure_swallowed src_five_then_empty args_example ⟨true, false⟩ "T" 5 _
    rfl (by decide)

/-! Section: Witnesses for the pagination claims -/

/-- Witness for C1: with maxPages = 3 and a source that always returns one
alert, exactly 3 fetches occur and three alerts are returned. -/
theorem retrieve_max_pages_bound_witness :
    retrieve_all_alerts src_const 100 (some (3 : Int)) 3 = some [7, 7, 7]
    ∧ (run_loop src_const 100 (some (3 : Int)) 3 (init_state Nat)).map LoopState.fetches
        = some [(0, 100), (100, 200), (200, 300)]
    ∧ (windows 100 3).length = 3 := by
  have h := retrieve_max_pages_bound src_const 100 3 (by omega)
    (fun s e => ⟨⟨some ⟨some [7]⟩⟩, rfl, by decide⟩) 3 (le_refl 3)
  exact ⟨h.1.trans (by decide), h.2.1.trans (by decide), h.2.2⟩

/-- Witness for C2: two non-empty pages then an empty one yield the
concatenation of the two pages in exactly 3 fetches. -/
theorem retrieve_stops_on_empty_page_witness :
    retrieve_all_alerts src_two_then_empty 100 (some (10 : Int)) 3 = some [1, 2, 3]
    ∧ (run_loop src_two_then_empty 100 (some (10 : Int)) 3 (init_state Nat)).map LoopState.fetches
        = some [(0, 100), (100, 200), (200, 300)]
    ∧ (windows 100 3).length = 3 := by
  have h := retrieve_stops_on_empty_page src_two_then_empty 100 (some (10 : Int)) 2
    (by
      intro j hj
      interval_cases j
      · exact ⟨⟨some ⟨some [1, 2]⟩⟩, rfl, by decide⟩
      · exact ⟨⟨some ⟨some [3]⟩⟩, rfl, by decide⟩)
    ⟨⟨some ⟨some []⟩⟩, rfl, by decide⟩
    (by intro m hm h0; injection hm with hm; omega)
    3 (by omega)
  exact ⟨h.1.trans (by decide), h.2.1.trans (by decide), h.2.2⟩

/-- Witness for C3: five alerts on page 1, a transport error on page 2:
the run ends with exactly those five records handed to the sink and exit
code 0, with no fetch after the failing one. -/
theorem retrieve_fail_fast_partial_witness :
    retrieve_all_alerts src_five_then_error 100 (some (10 : Int)) 5 = some [1, 2, 3, 4, 5]
    ∧ (run_loop src_five_then_error 100 (some (10 : Int)) 5 (init_state Nat)).map
        LoopState.fetches = some [(0, 100), (100, 200)]
    ∧ (main_run src_five_then_error args_example ⟨true, true⟩ "T" 5).map MainOutcome.sink_input
        = some [1, 2, 3, 4, 5]
    ∧ (main_run src_five_then_error args_example ⟨true, true⟩ "T" 5).map MainOutcome.exit_code
        = some 0 := by
  have h := retrieve_fail_fast_partial src_five_then_error args_example ⟨true, true⟩ "T" 1
    (by
      intro j hj
      interval_cases j
      exact ⟨⟨some ⟨some [1, 2, 3, 4, 5]⟩⟩, rfl, by decide⟩)
    ⟨"transport error", rfl⟩
    (fun _ => by decide)
    5 (by omega)
  exact ⟨h.1.trans (by decide), h.2.1.trans (by decide), h.2.2.1.trans (by decide), h.2.2.2⟩

/-- Witness for C10: two main runs differing only in the start argument
coincide, and the single fetch of a concrete run uses the canonical first
window with pass-through payload bounds. -/
theorem main_start_arg_unused_witness :
    main_run src_empty { args_example with start := 1 } ⟨true, true⟩ "T" 1
      = main_run src_empty { args_example with start := 2 } ⟨true, true⟩ "T" 1
    ∧ (⟨[], 0, 1, [((0 : Int), (100 : Int))]⟩ : LoopState Nat).fetches.get ⟨0, by decide⟩
        = ((0 : Int), (100 : Int))
    ∧ (get_payload ((⟨[], 0, 1, [((0 : Int), (100 : Int))]⟩ : LoopState Nat).fetches.get
          ⟨0, by decide⟩).1
        ((⟨[], 0, 1, [((0 : Int), (100 : Int))]⟩ : LoopState Nat).fetches.get
          ⟨0, by decide⟩).2 none).request_data.search_from = (0 : Int)
    ∧ (get_payload ((⟨[], 0, 1, [((0 : Int), (100 : Int))]⟩ : LoopState Nat).fetches.get
          ⟨0, by decide⟩).1
        ((⟨[], 0, 1, [((0 : Int), (100 : Int))]⟩ : LoopState Nat).fetches.get
          ⟨0, by decide⟩).2 none).request_data.search_to = (100 : Int) := by
  have h := main_start_arg_unused src_empty args_example ⟨true, true⟩ "T" 1 1 2
    (⟨[], 0, 1, [(0, 100)]⟩ : LoopState Nat) 0 (by decide) (by decide)
  exact ⟨h.1, h.2.1.trans (by decide), h.2.2.1.trans (by decide), h.2.2.2.trans (by decide)⟩

end GetAlerts
